import Mathlib

/-!
Verification development for the invoice-processing pipeline
(document lifecycle, pattern extraction, OCR confidence aggregation,
and the external-bookkeeping adapter).

The Python sources are shallowly embedded: pure functions become Lean
functions, the regular-expression searches of the extraction service are
run on a small backtracking engine with Python `re.search` semantics
(leftmost match, alternation tried left to right, greedy repetition with
backtracking), exact decimals (`decimal.Decimal`) are carried as `Rat`,
and the stateful HTTP endpoints become explicit state transformers over
the persisted document record.
-/

namespace YukiBot

/- ## Character and string utilities (Python semantics, ASCII range) -/

/-- Python whitespace characters recognised by `\s` and `str.strip`
(ASCII range, which covers every text appearing in the sources). -/
def isPySpace (c : Char) : Bool :=
  c = ' ' || c = '\t' || c = '\n' || c = '\x0d' || c = '\x0b' || c = '\x0c'

def isDigitCh (c : Char) : Bool := '0' ≤ c && c ≤ '9'

def isAsciiAlpha (c : Char) : Bool :=
  ('a' ≤ c && c ≤ 'z') || ('A' ≤ c && c ≤ 'Z')

def isUpperCh (c : Char) : Bool := 'A' ≤ c && c ≤ 'Z'

/-- Python `str.strip()`: drop leading and trailing whitespace. -/
def pyStrip (s : String) : String :=
  ⟨((s.data.dropWhile isPySpace).reverse.dropWhile isPySpace).reverse⟩

/-- Check that `p` is a prefix of the second argument. -/
def litPrefixCheck : List Char → List Char → Bool
  | [], _ => true
  | _ :: _, [] => false
  | p :: ps, c :: cs => p = c && litPrefixCheck ps cs

/-- Membership of `p` as a contiguous sublist of the second argument. -/
def charsInfix (p : List Char) : List Char → Bool
  | [] => decide (p = [])
  | c :: t => (litPrefixCheck p (c :: t)) || charsInfix p t

/-- Python `needle in hay` substring test. -/
def strContains (hay needle : String) : Bool :=
  charsInfix needle.data hay.data

/-- Python `str.upper()` (ASCII). -/
def pyUpper (s : String) : String := ⟨s.data.map Char.toUpper⟩

/-- Python `str.lower()` (ASCII). -/
def pyLower (s : String) : String := ⟨s.data.map Char.toLower⟩

/-- Python `str.isdigit()`: non-empty and all characters are digits. -/
def pyIsDigit (s : String) : Bool :=
  !s.data.isEmpty && s.data.all isDigitCh

/-- Python `str.replace(',', '.')`, the single-character replacement used
before decimal parsing. -/
def commaToDot (s : String) : String :=
  ⟨s.data.map (fun c => if c = ',' then '.' else c)⟩

/- ## Backtracking regular-expression engine

Character classes and the pattern constructors actually used by the
extraction service.  `mAll` returns every way a pattern can match a
prefix of the input, in Python backtracking priority order (first
element = the match `re` reports), each with the group-1 capture. -/

inductive CC where
  | digit
  | alpha
  | spaceCls
  | upper
  | upperDigit
  | alnumDash
  | oneOf (cs : List Char)
deriving Repr

def CC.test : CC → Char → Bool
  | .digit, c => isDigitCh c
  | .alpha, c => isAsciiAlpha c
  | .spaceCls, c => isPySpace c
  | .upper, c => isUpperCh c
  | .upperDigit, c => isUpperCh c || isDigitCh c
  | .alnumDash, c => isAsciiAlpha c || isDigitCh c || c = '-'
  | .oneOf cs, c => cs.contains c

inductive RE where
  | lit (s : String)
  | litCI (s : String)
  | cls (c : CC)
  | alt (a b : RE)
  | seq (a b : RE)
  | opt (r : RE)
  | star (c : CC)
  | plus (c : CC)
  | rep (c : CC) (n : Nat)
  | repRange (c : CC) (lo hi : Nat)
  | group (r : RE)
deriving Repr

/-- Length of the maximal run of class characters at the head of `s`. -/
def runLen (c : CC) : List Char → Nat
  | [] => 0
  | ch :: t => if c.test ch then runLen c t + 1 else 0

/-- Case-sensitive / case-insensitive literal prefix match. -/
def litPrefix (ci : Bool) : List Char → List Char → Option (List Char)
  | [], s => some s
  | _ :: _, [] => none
  | p :: ps, c :: cs =>
      let ok := if ci then p.toLower = c.toLower else p = c
      if ok then litPrefix ci ps cs else none

/-- A single way a pattern can match: the unconsumed remainder of the
input, and the group-1 capture if the group was entered. -/
abbrev MRes := List (List Char × Option (List Char))

def mergeCap (g1 g2 : Option (List Char)) : Option (List Char) :=
  match g2 with
  | some x => some x
  | none => g1

/-- All matches of `r` at the head of the input, in Python backtracking
priority order (alternation left to right, `?` and repetition greedy). -/
def mAll : RE → List Char → MRes
  | .lit p, s =>
      match litPrefix false p.data s with
      | some rest => [(rest, none)]
      | none => []
  | .litCI p, s =>
      match litPrefix true p.data s with
      | some rest => [(rest, none)]
      | none => []
  | .cls c, s =>
      match s with
      | [] => []
      | ch :: t => if c.test ch then [(t, none)] else []
  | .alt a b, s => mAll a s ++ mAll b s
  | .seq a b, s =>
      (mAll a s).flatMap fun m1 =>
        (mAll b m1.1).map fun m2 => (m2.1, mergeCap m1.2 m2.2)
  | .opt r, s => mAll r s ++ [(s, none)]
  | .star c, s =>
      let n := runLen c s
      (List.range (n + 1)).map fun j => (s.drop (n - j), none)
  | .plus c, s =>
      let n := runLen c s
      (List.range n).map fun j => (s.drop (n - j), none)
  | .rep c n, s =>
      if runLen c s ≥ n then [(s.drop n, none)] else []
  | .repRange c lo hi, s =>
      let n := min (runLen c s) hi
      if n < lo then []
      else (List.range (n - lo + 1)).map fun j => (s.drop (n - j), none)
  | .group r, s =>
      (mAll r s).map fun m => (m.1, some (s.take (s.length - m.1.length)))

/-- Highest-priority match of `r` at the head of `s`:
the matched text (`group(0)`) and the group-1 capture. -/
def firstMatch (r : RE) (s : List Char) : Option (List Char × Option (List Char)) :=
  match mAll r s with
  | [] => none
  | m :: _ => some (s.take (s.length - m.1.length), m.2)

/-- Python `re.search`: leftmost starting position that admits a match. -/
def reSearchAux (r : RE) : List Char → Option (List Char × Option (List Char))
  | [] => firstMatch r []
  | c :: t =>
      match firstMatch r (c :: t) with
      | some m => some m
      | none => reSearchAux r t

def reSearch (r : RE) (s : String) : Option (String × Option String) :=
  (reSearchAux r s.data).map fun m => (⟨m.1⟩, m.2.map fun g => ⟨g⟩)

/-- Sequence a list of pattern pieces. -/
def reSeq (l : List RE) : RE := l.foldr .seq (.lit "")

/- ## Exact decimals: `decimal.Decimal(str)`

Carried as `Rat`.  The constructor grammar relevant to the extraction
service is `digits [ '.' digits ]` with at least one digit overall
(every candidate string comes from a `[0-9.,]`-only regex capture with
`,` already replaced by `.`); anything else, in particular a second
point as in `1.234.56`, raises `InvalidOperation`, embedded as `none`. -/

def digitVal (c : Char) : Nat := c.toNat - 48

def digitsToNat (l : List Char) : Nat :=
  l.foldl (fun a c => 10 * a + digitVal c) 0

/-- Parse a string as Python `Decimal`, or `none` on `InvalidOperation`. -/
def pyDecimal (s : String) : Option Rat :=
  let cs := s.data
  let intPart := cs.takeWhile isDigitCh
  let rest := cs.drop intPart.length
  match rest with
  | [] =>
      if intPart.isEmpty then none
      else some ((digitsToNat intPart : Int) : Rat)
  | '.' :: r2 =>
      let fracPart := r2.takeWhile isDigitCh
      let rest2 := r2.drop fracPart.length
      if rest2.isEmpty && !(intPart.isEmpty && fracPart.isEmpty) then
        some (mkRat (digitsToNat (intPart ++ fracPart)) (10 ^ fracPart.length))
      else none
  | _ => none

/- ## Dates: `datetime.strptime` for the three formats of the extractor

`strptime` compiles a format to a regex (`%d` → `3[01]|[12]\d|0[1-9]|[1-9]`,
`%m` → `1[0-2]|0[1-9]|[1-9]`, `%Y` → `\d{4}`, `%B` → the English month
names case-insensitively, a literal space → `\s+`), requires the whole
string to be consumed, and finally validates via the `datetime`
constructor (which rejects year 0 and out-of-range days). -/

structure Date where
  year : Nat
  month : Nat
  day : Nat
deriving DecidableEq, Repr

def isLeapYear (y : Nat) : Bool :=
  (y % 4 = 0 && y % 100 ≠ 0) || y % 400 = 0

def daysInMonth (y m : Nat) : Nat :=
  if m = 2 then (if isLeapYear y then 29 else 28)
  else if m = 4 || m = 6 || m = 9 || m = 11 then 30
  else 31

/-- The `datetime(year, month, day)` constructor's validity check. -/
def mkValidDate (y m d : Nat) : Option Date :=
  if 1 ≤ y && y ≤ 9999 && 1 ≤ d && d ≤ daysInMonth y m then
    some ⟨y, m, d⟩
  else none

def takeDigits2 : List Char → Option (Nat × List Char)
  | a :: b :: r =>
      if isDigitCh a && isDigitCh b then
        some (digitVal a * 10 + digitVal b, r)
      else none
  | _ => none

/-- `%d`: day-of-month alternatives in Python's regex alternation order
`3[01]|[12]\d|0[1-9]|[1-9]`; every alternative is returned so that the
caller can backtrack into the shorter one. -/
def parseDayOpts (s : List Char) : List (Nat × List Char) :=
  let two :=
    match s with
    | a :: b :: r =>
        if a = '3' && (b = '0' || b = '1') then [(30 + digitVal b, r)]
        else if (a = '1' || a = '2') && isDigitCh b then
          [(digitVal a * 10 + digitVal b, r)]
        else if a = '0' && isDigitCh b && b ≠ '0' then [(digitVal b, r)]
        else []
    | _ => []
  let one :=
    match s with
    | a :: r => if isDigitCh a && a ≠ '0' then [(digitVal a, r)] else []
    | _ => []
  two ++ one

/-- `%m`: month alternatives `1[0-2]|0[1-9]|[1-9]` in order. -/
def parseMonthOpts (s : List Char) : List (Nat × List Char) :=
  let two :=
    match s with
    | a :: b :: r =>
        if a = '1' && (b = '0' || b = '1' || b = '2') then [(10 + digitVal b, r)]
        else if a = '0' && isDigitCh b && b ≠ '0' then [(digitVal b, r)]
        else []
    | _ => []
  let one :=
    match s with
    | a :: r => if isDigitCh a && a ≠ '0' then [(digitVal a, r)] else []
    | _ => []
  two ++ one

/-- `%Y`: exactly four digits. -/
def parseYear4 : List Char → Option (Nat × List Char)
  | a :: b :: c :: d :: r =>
      if isDigitCh a && isDigitCh b && isDigitCh c && isDigitCh d then
        some (digitsToNat [a, b, c, d], r)
      else none
  | _ => none

def monthNames : List (String × Nat) :=
  [("september", 9), ("february", 2), ("november", 11), ("december", 12),
   ("january", 1), ("october", 10), ("august", 8), ("march", 3),
   ("april", 4), ("june", 6), ("july", 7), ("may", 5)]

/-- `%B`: an English month name, case-insensitively, longest names
first (Python sorts the alternation by length). -/
def parseMonthName (s : List Char) : Option (Nat × List Char) :=
  monthNames.findSome? fun nm =>
    match litPrefix true nm.1.data s with
    | some r => some (nm.2, r)
    | none => none

/-- A literal space in a `strptime` format matches a whitespace run. -/
def parseSpaces1 (s : List Char) : Option (List Char) :=
  match s with
  | c :: t => if isPySpace c then some (t.dropWhile isPySpace) else none
  | [] => none

def expectChar (c : Char) : List Char → Option (List Char)
  | x :: r => if x = c then some r else none
  | [] => none

/-- `strptime(s, '%d-%m-%Y')`. -/
def strptimeDashDMY (s : List Char) : Option Date :=
  (parseDayOpts s).findSome? fun dr =>
    (expectChar '-' dr.2).bind fun r1 =>
      (parseMonthOpts r1).findSome? fun mr =>
        (expectChar '-' mr.2).bind fun r2 =>
          (parseYear4 r2).bind fun yr =>
            if yr.2.isEmpty then mkValidDate yr.1 mr.1 dr.1 else none

/-- `strptime(s, '%Y-%m-%d')`. -/
def strptimeDashYMD (s : List Char) : Option Date :=
  (parseYear4 s).bind fun yr =>
    (expectChar '-' yr.2).bind fun r1 =>
      (parseMonthOpts r1).findSome? fun mr =>
        (expectChar '-' mr.2).bind fun r2 =>
          (parseDayOpts r2).findSome? fun dr =>
            if dr.2.isEmpty then mkValidDate yr.1 mr.1 dr.1 else none

/-- `strptime(s, '%d %B %Y')`. -/
def strptimeDayMonthName (s : List Char) : Option Date :=
  (parseDayOpts s).findSome? fun dr =>
    (parseSpaces1 dr.2).bind fun r1 =>
      (parseMonthName r1).bind fun mr =>
        (parseSpaces1 mr.2).bind fun r2 =>
          (parseYear4 r2).bind fun yr =>
            if yr.2.isEmpty then mkValidDate yr.1 mr.1 dr.1 else none

/- ## ExtractionService (`app/services/extraction_service.py`)

The `ExtractedData` dataclass and the pattern tables built in
`ExtractionService.__init__`, followed by the per-field extractors.
Patterns compiled with `re.IGNORECASE` are spelled with `litCI` and
widened character classes; the date and IBAN searches carry no flag. -/

structure ExtractedData where
  vendor_name : Option String := none
  invoice_number : Option String := none
  invoice_date : Option Date := none
  total_amount : Option Rat := none
  vat_amount : Option Rat := none
  vat_percentage : Option Rat := none
  iban : Option String := none
  description : Option String := none
deriving DecidableEq, Repr

def sp0 : RE := .star .spaceCls

def sepDotComma : RE := .cls (.oneOf ['.', ','])

/-- `\d{2}[-\x2F]\d{2}[-\x2F]\d{4}`. -/
def datePat1 : RE :=
  reSeq [.rep .digit 2, .cls (.oneOf ['-', '/']), .rep .digit 2,
         .cls (.oneOf ['-', '/']), .rep .digit 4]

/-- `\d{4}[-\x2F]\d{2}[-\x2F]\d{2}`. -/
def datePat2 : RE :=
  reSeq [.rep .digit 4, .cls (.oneOf ['-', '/']), .rep .digit 2,
         .cls (.oneOf ['-', '/']), .rep .digit 2]

/-- `\d{2}\s+[A-Za-z]+\s+\d{4}`. -/
def datePat3 : RE :=
  reSeq [.rep .digit 2, .plus .spaceCls, .plus .alpha, .plus .spaceCls,
         .rep .digit 4]

def datePatterns : List RE := [datePat1, datePat2, datePat3]

/-- `(\d+[.,]\d{2})`: the captured two-decimal amount. -/
def amountGroup : RE :=
  .group (reSeq [.plus .digit, sepDotComma, .rep .digit 2])

/-- `(?:Totaal|Total)\s*(?:bedrag|amount)?\s*[:=]?\s*(?:€|EUR)?\s*(\d+[.,]\d{2})`,
IGNORECASE. -/
def totalPat1 : RE :=
  reSeq [.alt (.litCI "Totaal") (.litCI "Total"), sp0,
         .opt (.alt (.litCI "bedrag") (.litCI "amount")), sp0,
         .opt (.cls (.oneOf [':', '='])), sp0,
         .opt (.alt (.litCI "€") (.litCI "EUR")), sp0, amountGroup]

/-- `(?:Totaal|Total)\s*(?:incl\.?\s*BTW|incl\.?\s*VAT)?\s*[:=]?\s*(?:€|EUR)?\s*(\d+[.,]\d{2})`,
IGNORECASE. -/
def totalPat2 : RE :=
  reSeq [.alt (.litCI "Totaal") (.litCI "Total"), sp0,
         .opt (.alt (reSeq [.litCI "incl", .opt (.lit "."), sp0, .litCI "BTW"])
                    (reSeq [.litCI "incl", .opt (.lit "."), sp0, .litCI "VAT"])),
         sp0, .opt (.cls (.oneOf [':', '='])), sp0,
         .opt (.alt (.litCI "€") (.litCI "EUR")), sp0, amountGroup]

def totalPatterns : List RE := [totalPat1, totalPat2]

/-- `(?:BTW|VAT)\s*(?:bedrag|amount)?\s*[:=]?\s*(?:€|EUR)?\s*(\d+[.,]\d{2})`,
IGNORECASE. -/
def vatPat1 : RE :=
  reSeq [.alt (.litCI "BTW") (.litCI "VAT"), sp0,
         .opt (.alt (.litCI "bedrag") (.litCI "amount")), sp0,
         .opt (.cls (.oneOf [':', '='])), sp0,
         .opt (.alt (.litCI "€") (.litCI "EUR")), sp0, amountGroup]

/-- `(?:BTW|VAT)\s*(?:percentage|rate)?\s*[:=]?\s*(\d+[.,]?\d*)%`, IGNORECASE. -/
def vatPat2 : RE :=
  reSeq [.alt (.litCI "BTW") (.litCI "VAT"), sp0,
         .opt (.alt (.litCI "percentage") (.litCI "rate")), sp0,
         .opt (.cls (.oneOf [':', '='])), sp0,
         .group (reSeq [.plus .digit, .opt sepDotComma, .star .digit]),
         .lit "%"]

/-- `self.vat_patterns`: the amount pattern, then the percentage pattern. -/
def vatPatterns : List RE := [vatPat1, vatPat2]

/-- `[A-Z]{2}\d{2}[A-Z0-9]{1,30}` (case-sensitive). -/
def ibanPattern : RE :=
  reSeq [.rep .upper 2, .rep .digit 2, .repRange .upperDigit 1 30]

/-- `(?:Factuur|Invoice)\s*(?:nummer|number)?\s*[:=]?\s*([A-Z0-9-]+)`,
IGNORECASE (which also widens `[A-Z0-9-]` to lowercase letters). -/
def invoicePat1 : RE :=
  reSeq [.alt (.litCI "Factuur") (.litCI "Invoice"), sp0,
         .opt (.alt (.litCI "nummer") (.litCI "number")), sp0,
         .opt (.cls (.oneOf [':', '='])), sp0, .group (.plus .alnumDash)]

/-- `(?:Factuur|Invoice)\s*#\s*([A-Z0-9-]+)`, IGNORECASE. -/
def invoicePat2 : RE :=
  reSeq [.alt (.litCI "Factuur") (.litCI "Invoice"), sp0, .lit "#", sp0,
         .group (.plus .alnumDash)]

/-- `_extract_vendor_name`: first of the first five lines containing a
legal-entity marker, uppercased substring test, stripped. -/
def extract_vendor_name (text : String) : Option String :=
  let lines := (text.splitOn "\n").take 5
  (lines.find? fun line =>
      ["BV", "NV", "B.V.", "N.V.", "LLC", "INC"].any fun ind =>
        strContains (pyUpper line) ind).map pyStrip

/-- `_extract_invoice_number`: first label pattern that matches; group 1. -/
def extract_invoice_number (text : String) : Option String :=
  [invoicePat1, invoicePat2].findSome? fun p =>
    match reSearch p text with
    | some (_, g) => g
    | none => none

/-- `_extract_date`: for each pattern in order, take the first textual
match and try the three format strings `%d-%m-%Y`, `%Y-%m-%d`,
`%d %B %Y` in order; if none parses, fall through to the next pattern. -/
def extract_date (text : String) : Option Date :=
  datePatterns.findSome? fun p =>
    match reSearch p text with
    | some (m, _) =>
        [strptimeDashDMY, strptimeDashYMD, strptimeDayMonthName].findSome?
          fun f => f m.data
    | none => none

/-- `_extract_total_amount`: for each label pattern in order, normalise
the captured amount's `,` to `.` and parse it as `Decimal`; a parse
failure is treated as no match and the next pattern is tried. -/
def extract_total_amount (text : String) : Option Rat :=
  totalPatterns.findSome? fun p =>
    match reSearch p text with
    | some (_, some g) => pyDecimal (commaToDot g)
    | _ => none

/-- `_extract_vat_amount`: same discipline over `self.vat_patterns`. -/
def extract_vat_amount (text : String) : Option Rat :=
  vatPatterns.findSome? fun p =>
    match reSearch p text with
    | some (_, some g) => pyDecimal (commaToDot g)
    | _ => none

/-- `_extract_vat_percentage`: the single percentage pattern; a parse
failure returns `None` directly. -/
def extract_vat_percentage (text : String) : Option Rat :=
  match reSearch vatPat2 text with
  | some (_, some g) => pyDecimal (commaToDot g)
  | _ => none

/-- `_extract_iban`: first substring matching the IBAN pattern. -/
def extract_iban (text : String) : Option String :=
  (reSearch ibanPattern text).map Prod.fst

/-- `_extract_description`: first line without a header keyword whose
stripped form is longer than 10 characters and not purely numeric. -/
def extract_description (text : String) : Option String :=
  ((text.splitOn "\n").find? fun line =>
      !(["total", "totaal", "btw", "vat", "factuur", "invoice"].any fun k =>
          strContains (pyLower line) k) &&
      (pyStrip line).length > 10 && !pyIsDigit (pyStrip line)).map pyStrip

/- ## OCR confidence structures (`app/services/ocr_service.py`) -/

/-- Per-page confidence block produced by `_process_image_object`. -/
structure PageConf where
  overall : Rat
  perWord : List (String × Rat)
deriving DecidableEq, Repr

/-- Combined confidence structure produced by `_process_pdf`. -/
structure PdfAggregate where
  overall : Rat
  perPage : List (String × PageConf)
deriving DecidableEq, Repr

/-- Confidence value attached to a document: the PDF-aggregated shape or
the single-image shape, depending on the uploaded file type. -/
inductive OcrConfidence where
  | pdfAgg (c : PdfAggregate)
  | image (c : PageConf)
deriving DecidableEq, Repr

/-- Decimal digit characters of a natural number, most significant
first — the rendering used by Python's f-string `f"page_{i+1}"`. -/
def natToDigits (n : Nat) : List Char :=
  if h : n < 10 then [Char.ofNat (48 + n)]
  else natToDigits (n / 10) ++ [Char.ofNat (48 + n % 10)]
decreasing_by exact Nat.div_lt_self (by omega) (by omega)

def natRepr (n : Nat) : String := ⟨natToDigits n⟩

/-- Dictionary key `f"page_{i}"`. -/
def pageKey (i : Nat) : String := "page_" ++ natRepr i

/-- `_process_pdf` after the per-page OCR calls: pages joined with blank
lines in page order, overall = arithmetic mean of the per-page overalls,
and one `page_{i+1}` entry per page.  (On a zero-page input the source
divides by zero; the claims below are restricted to non-empty inputs.) -/
def process_pdf (pages : List (String × PageConf)) : String × PdfAggregate :=
  let allText := pages.map Prod.fst
  let allConfidences := pages.map Prod.snd
  (String.intercalate "\n\n" allText,
   { overall := (allConfidences.map PageConf.overall).sum / (allConfidences.length : Rat),
     perPage := allConfidences.enum.map fun ic => (pageKey (ic.1 + 1), ic.2) })

/- ## YukiService (`app/services/yuki_service.py`) -/

inductive YukiErr where
  | connectionError (msg : String)
  | otherError (msg : String)
deriving DecidableEq, Repr

/-- Result of `_init_clients`: success or `YukiConnectionError`, with
the number of `Client(...)` construction attempts made and the number of
`time.sleep(retry_delay)` calls (one fixed delay between attempts).
`noAttempt` is the fall-through when `range(max_retries)` is empty. -/
inductive InitOutcome where
  | ok (attemptsMade sleepsMade : Nat)
  | connError (attemptsMade sleepsMade : Nat)
  | noAttempt
deriving DecidableEq, Repr

/-- The `for attempt in range(self.max_retries)` loop of `_init_clients`:
`attempt` is the loop index and `remaining = maxRetries - attempt` counts
the loop iterations still available; `succeeds k` tells whether the
`k`-th client construction attempt raises a transport failure (`false`)
or not. -/
def initClientsLoop (succeeds : Nat → Bool) (maxRetries : Nat) :
    Nat → Nat → InitOutcome
  | 0, _ => .noAttempt
  | remaining + 1, attempt =>
      if succeeds attempt then .ok (attempt + 1) attempt
      else if attempt = maxRetries - 1 then .connError (attempt + 1) attempt
      else initClientsLoop succeeds maxRetries remaining (attempt + 1)

/-- `_init_clients`, run during `YukiService.__init__`. -/
def init_clients (succeeds : Nat → Bool) (maxRetries : Nat) : InitOutcome :=
  initClientsLoop succeeds maxRetries maxRetries 0

/-- Outcome of one network call made by an operation. -/
inductive CallOutcome where
  | success (value : String)
  | transportError (msg : String)
  | otherFailure (msg : String)
deriving DecidableEq, Repr

/-- Result of an operation together with the number of network attempts
it made. -/
structure OpRun where
  result : Except YukiErr String
  attemptsMade : Nat
deriving Repr

/-- `upload_document`: a single `requests.post`; a `TransportError` is
re-raised as `YukiConnectionError`, any other failure is re-raised
unchanged, and the success value is `response.text.strip()`.  The call
sequence `attempts` is consulted only at index 0: the operation has no
retry loop. -/
def upload_document_op (attempts : Nat → CallOutcome) : OpRun :=
  match attempts 0 with
  | .success v => ⟨.ok (pyStrip v), 1⟩
  | .transportError m =>
      ⟨.error (.connectionError ("Failed to connect to Yuki API: " ++ m)), 1⟩
  | .otherFailure m => ⟨.error (.otherError m), 1⟩

/-- Numeric values at the wire boundary: `float(...)` produces a binary
floating-point value, `Decimal` an exact decimal, and a bare literal an
int.  The payload is the numeric value (every number submitted by the
claims below is exactly representable as a double, so IEEE-754 rounding
inside `float` is not modelled further — only the kind tag and value
matter). -/
inductive PyNum where
  | pyFloat (v : Rat)
  | pyDecimal (v : Rat)
  | pyInt (n : Int)
deriving DecidableEq, Repr

/-- Python `float(x)` applied to a Decimal or int. -/
def pyFloatOf : PyNum → PyNum
  | .pyFloat v => .pyFloat v
  | .pyDecimal v => .pyFloat v
  | .pyInt n => .pyFloat (n : Rat)

def PyNum.isBinFloat : PyNum → Bool
  | .pyFloat _ => true
  | _ => false

def PyNum.isExactDecimal : PyNum → Bool
  | .pyDecimal _ => true
  | _ => false

/-- One entry of `booking_data['Lines']`. -/
structure BookingLine where
  glAccountCode : String
  description : String
  amount : PyNum
  vatCode : Option String
  vatPercentage : PyNum
  vatAmount : PyNum
deriving DecidableEq, Repr

/-- The `data` dict handed to `create_accounting_entry` (keys read with
`data[...]` are mandatory; keys read with `data.get(...)` are optional;
`vat_gl_account` is only read inside the VAT branch and is modelled as
present — in Python its absence there would raise `KeyError`). -/
structure BookingEntryData where
  date : Date
  description : String
  gl_account : String
  amount : Rat
  vat_code : Option String := none
  vat_percentage : Option Rat := none
  vat_amount : Option Rat := none
  vat_gl_account : String := ""
deriving DecidableEq, Repr

/-- The `BookingTransaction` request object submitted to `CreateBooking`. -/
structure BookingData where
  administrationID : String
  documentID : String
  date : String
  description : String
  lines : List BookingLine
deriving DecidableEq, Repr

def pad2 (n : Nat) : String := if n < 10 then "0" ++ natRepr n else natRepr n

/-- `strftime('%Y-%m-%d')`. -/
def dateToIso (d : Date) : String :=
  natRepr d.year ++ "-" ++ pad2 d.month ++ "-" ++ pad2 d.day

/-- Python truthiness of `data.get('vat_amount')`: `None` and
`Decimal(0)` are falsy, a non-zero Decimal is truthy. -/
def vatTruthy : Option Rat → Bool
  | none => false
  | some q => q != 0

/-- String rendering of the optional VAT percentage used inside the VAT
line's description (`f"VAT {...}%"`); the claims never inspect this
string, so the scale-preserving `Decimal` rendering is abbreviated by
the canonical `Rat` rendering. -/
def vatPercentageText (p : Option Rat) : String :=
  match p with
  | none => "0"
  | some q => toString q

/-- The payload construction of `create_accounting_entry`: one principal
line built with `float(...)` conversions, plus a VAT counter-entry line
(itself carrying literal-int zero VAT fields) appended exactly when
`data.get('vat_amount')` is truthy. -/
def create_accounting_entry_data (administration_id : String)
    (data : BookingEntryData) (document_id : String) : BookingData :=
  let mainLine : BookingLine :=
    { glAccountCode := data.gl_account
      description := data.description
      amount := pyFloatOf (.pyDecimal data.amount)
      vatCode := data.vat_code
      vatPercentage :=
        pyFloatOf (match data.vat_percentage with
                   | some q => .pyDecimal q
                   | none => .pyInt 0)
      vatAmount :=
        pyFloatOf (match data.vat_amount with
                   | some q => .pyDecimal q
                   | none => .pyInt 0) }
  let vatLine : BookingLine :=
    { glAccountCode := data.vat_gl_account
      description := "VAT " ++ vatPercentageText data.vat_percentage ++ "%"
      amount := pyFloatOf (.pyDecimal (data.vat_amount.getD 0))
      vatCode := data.vat_code
      vatPercentage := .pyInt 0
      vatAmount := .pyInt 0 }
  { administrationID := administration_id
    documentID := document_id
    date := dateToIso data.date
    description := data.description
    lines := if vatTruthy data.vat_amount then [mainLine, vatLine] else [mainLine] }

/- ## Persisted data model (`app/db/models.py`) -/

inductive ProcessingStatus where
  | pending
  | processing
  | extracted
  | validated
  | uploaded
  | booked
  | error
deriving DecidableEq, Repr

/-- A row of the `documents` table (the persisted fields the lifecycle
operations read or write). -/
structure DocRecord where
  id : Nat
  filename : String
  original_filename : String
  file_path : String
  mime_type : String
  file_size : Nat
  status : ProcessingStatus
  error_message : Option String := none
  extracted_data : Option ExtractedData := none
  confidence_scores : Option OcrConfidence := none
  yuki_document_id : Option String := none
  yuki_booking_id : Option String := none
deriving Repr

/-- A row of the `document_validations` table (immutable once written). -/
structure DocumentValidationRec where
  document_id : Nat
  validated_by : String
  validation_data : String
deriving DecidableEq, Repr

/-- A row of the `audit_logs` table (append-only). -/
structure AuditLogEntry where
  document_id : Nat
  action : String
  performed_by : String
  details : Option String := none
deriving DecidableEq, Repr

/-- The persisted state a lifecycle operation can touch: the document
row plus its validation and audit-log rows. -/
structure DbState where
  doc : DocRecord
  validations : List DocumentValidationRec
  auditLogs : List AuditLogEntry
deriving Repr

/-- Endpoint outcome: the JSON `status` field on success, or the raised
`HTTPException`. -/
inductive ApiResult where
  | ok (status : String)
  | httpError (code : Nat) (detail : String)
deriving DecidableEq, Repr

/- ## File-path handling of the intake endpoint -/

def strStartsWith (s p : String) : Bool := litPrefixCheck p.data s.data

def strEndsWith (s p : String) : Bool :=
  litPrefixCheck p.data.reverse s.data.reverse

/-- POSIX `os.path.join` for two components. -/
def osPathJoin (a b : String) : String :=
  if strStartsWith b "/" then b
  else if a = "" || strEndsWith a "/" then a ++ b
  else a ++ "/" ++ b

def splitOnChar (sep : Char) : List Char → List (List Char)
  | [] => [[]]
  | c :: t =>
      let r := splitOnChar sep t
      if c = sep then [] :: r
      else
        match r with
        | h :: t2 => (c :: h) :: t2
        | [] => [[c]]

/-- Split a path into its `/`-separated components. -/
def pathComponents (p : String) : List String :=
  (splitOnChar '/' p.data).map fun cs => ⟨cs⟩

/-- Resolve `.` and `..` components of a relative path (the
`os.path.normpath` view of where a written file actually lands). -/
def normComponents (comps : List String) : List String :=
  comps.foldl
    (fun acc c =>
      if c = "" || c = "." then acc
      else if c = ".." then
        (if acc ≠ [] && acc.getLast? ≠ some ".." then acc.dropLast else acc ++ [c])
      else acc ++ [c])
    []

def joinSlash : List (List Char) → List Char
  | [] => []
  | [x] => x
  | x :: xs => x ++ '/' :: joinSlash xs

def normRelPath (p : String) : String :=
  ⟨joinSlash ((normComponents (pathComponents p)).map String.data)⟩

/- ## API endpoints (`app/api/endpoints/documents.py`)

Each endpoint becomes a transformer of `DbState`; the unreliable
external calls (OCR, the accounting system) are abstracted by outcome
parameters, while every check, mutation and commit is taken from the
endpoint bodies. -/

/-- The `upload_document` intake endpoint: the storage path is the join
of the configured upload directory with the client-supplied filename,
taken verbatim, and the record is created PENDING. -/
def intake_document (uploadDir : String) (newId : Nat) (clientFilename : String)
    (contentType : String) (size : Nat) : DocRecord :=
  { id := newId
    filename := clientFilename
    original_filename := clientFilename
    file_path := osPathJoin uploadDir clientFilename
    mime_type := contentType
    file_size := size
    status := .pending }

/-- The `process_document` endpoint.  `ocrResult` abstracts
`ocr_service.process_document`: the extracted `(text, confidence)` pair,
or the message of the exception it raised.  The endpoint sets PROCESSING
and commits, runs OCR and extraction, stores the results and sets
EXTRACTED — with no check of the document's current status; on an
exception it sets ERROR with the message and re-raises as a 500. -/
def process_document (db : DbState)
    (ocrResult : Except String (String × OcrConfidence)) : DbState × ApiResult :=
  let doc1 := { db.doc with status := .processing }
  match ocrResult with
  | .error e =>
      ({ db with doc := { doc1 with status := .error, error_message := some e } },
       .httpError 500 e)
  | .ok (text, conf) =>
      let ed : ExtractedData :=
        { vendor_name := extract_vendor_name text
          invoice_number := extract_invoice_number text
          invoice_date := extract_date text
          total_amount := extract_total_amount text
          vat_amount := extract_vat_amount text
          vat_percentage := extract_vat_percentage text
          iban := extract_iban text
          description := extract_description text }
      ({ db with
          doc := { doc1 with
                    extracted_data := some ed
                    confidence_scores := some conf
                    status := .extracted } },
       .ok "extracted")

/-- The `validate_document` endpoint: appends a validation record and
sets VALIDATED — with no check of the document's current status and no
requirement that extracted data exists. -/
def validate_document (db : DbState) (validationData : String) : DbState × ApiResult :=
  let v : DocumentValidationRec :=
    { document_id := db.doc.id, validated_by := "user", validation_data := validationData }
  ({ db with doc := { db.doc with status := .validated },
             validations := db.validations ++ [v] },
   .ok "validated")

/-- Planned outcomes of the three external interactions of the booking
endpoint, in call order: client initialisation (`YukiService.__init__`),
`upload_document`, `create_accounting_entry`; each either a value or the
message of the exception it raised. -/
structure YukiCallPlan where
  initOutcome : Except String Unit
  uploadOutcome : Except String String
  bookingOutcome : Except String String

/-- The `upload_to_yuki` endpoint.  Returns the new state, the API
result, and the number of external network interactions performed.  The
VALIDATED precondition is checked before any external call, but its
`HTTPException(400)` is caught by the endpoint's own
`except Exception` handler, which sets ERROR and the error message and
re-raises a 500 — exactly as it does for genuine external failures. -/
def upload_to_yuki (db : DbState) (plan : YukiCallPlan) : DbState × ApiResult × Nat :=
  let fail := fun (calls : Nat) (msg : String) =>
    ({ db with doc := { db.doc with status := .error, error_message := some msg } },
     ApiResult.httpError 500 msg, calls)
  if db.doc.status = .validated then
    match plan.initOutcome with
    | .error m => fail 1 m
    | .ok _ =>
        match plan.uploadOutcome with
        | .error m => fail 2 m
        | .ok yukiDocId =>
            match plan.bookingOutcome with
            | .error m => fail 3 m
            | .ok bookingId =>
                ({ db with doc := { db.doc with
                                      status := .booked
                                      yuki_document_id := some yukiDocId
                                      yuki_booking_id := some bookingId } },
                 .ok "booked", 3)
  else
    fail 0 "400: Document must be validated first"

/- ## Concrete sample data used by the closed theorems below -/

def sampleDoc (st : ProcessingStatus) : DocRecord :=
  { id := 1
    filename := "invoice.pdf"
    original_filename := "invoice.pdf"
    file_path := "uploads/invoice.pdf"
    mime_type := "application/pdf"
    file_size := 1000
    status := st }

def sampleDb (st : ProcessingStatus) : DbState := ⟨sampleDoc st, [], []⟩

def samplePlan : YukiCallPlan := ⟨.ok (), .ok "YD-1", .ok "YB-1"⟩

/-- A call sequence whose first attempt hits a transport failure and
whose second attempt would succeed. -/
def failThenOk : Nat → CallOutcome :=
  fun k => if k = 0 then .transportError "connection reset" else .success "DOC-1"

/-- Booking input with `totalAmount=121.00` and `vatAmount=21.00`. -/
def exampleBookingData : BookingEntryData :=
  { date := ⟨2024, 3, 15⟩
    description := "Office supplies"
    gl_account := "4000"
    amount := 121
    vat_code := some "VAT21"
    vat_percentage := some 21
    vat_amount := some 21
    vat_gl_account := "1500" }

def exampleBookingDataNoVat : BookingEntryData :=
  { exampleBookingData with vat_amount := none }

def pages3 : List (String × PageConf) :=
  [("page one text", ⟨80, []⟩), ("page two text", ⟨90, []⟩), ("page three text", ⟨100, []⟩)]

/- ## Helper lemmas -/

lemma pyFloatOf_isBinFloat (x : PyNum) : (pyFloatOf x).isBinFloat = true := by
  cases x <;> rfl

lemma pyFloatOf_not_decimal (x : PyNum) : (pyFloatOf x).isExactDecimal = false := by
  cases x <;> rfl

lemma pyInt_isExactDecimal (n : Int) : (PyNum.pyInt n).isExactDecimal = false := rfl

lemma pyInt_isBinFloat (n : Int) : (PyNum.pyInt n).isBinFloat = false := rfl

lemma digitsToNat_append_digit (l : List Char) (c : Char) :
    digitsToNat (l ++ [c]) = 10 * digitsToNat l + digitVal c := by
  simp [digitsToNat, List.foldl_append]

lemma digitVal_ofNat (k : Nat) (hk : k < 10) :
    digitVal (Char.ofNat (48 + k)) = k := by
  interval_cases k <;> decide

lemma digitsToNat_natToDigits (n : Nat) : digitsToNat (natToDigits n) = n := by
  induction n using Nat.strong_induction_on with
  | _ n ih =>
    rw [natToDigits]
    by_cases h : n < 10
    · simp only [h, dif_pos]
      show digitsToNat ([] ++ [Char.ofNat (48 + n)]) = n
      rw [digitsToNat_append_digit, digitVal_ofNat n h]
      simp [digitsToNat]
    · simp only [h, dif_neg, not_false_iff]
      rw [digitsToNat_append_digit,
          ih (n / 10) (Nat.div_lt_self (by omega) (by omega)),
          digitVal_ofNat (n % 10) (Nat.mod_lt n (by omega))]
      omega

lemma natRepr_injective : Function.Injective natRepr := by
  intro a b h
  have hd : natToDigits a = natToDigits b := congrArg String.data h
  have := congrArg digitsToNat hd
  rwa [digitsToNat_natToDigits, digitsToNat_natToDigits] at this

lemma string_append_data (s t : String) : (s ++ t).data = s.data ++ t.data := rfl

lemma pageKey_injective : Function.Injective pageKey := by
  intro a b h
  apply natRepr_injective
  have hd := congrArg String.data h
  simp only [pageKey, string_append_data] at hd
  have := List.append_cancel_left hd
  exact congrArg String.mk this

lemma pageKeySucc_injective : Function.Injective (fun i : Nat => pageKey (i + 1)) :=
  fun a b h => by
    have := pageKey_injective h
    omega

/-- Exhausting the retry budget of `_init_clients`: if every attempt
strictly below `maxRetries` fails, the loop makes exactly `maxRetries`
attempts, sleeps the fixed delay `maxRetries - 1` times, and raises
`YukiConnectionError`. -/
lemma initClientsLoop_exhaust (succeeds : Nat → Bool) (m : Nat) :
    ∀ rem a, a + rem = m → 0 < rem →
      (∀ k, a ≤ k → k < m → succeeds k = false) →
      initClientsLoop succeeds m rem a = .connError m (m - 1) := by
  intro rem
  induction rem with
  | zero =>
    intro a _ h2 _
    omega
  | succ d ih =>
    intro a hd _ hf
    have ha : a < m := by omega
    rw [initClientsLoop]
    rw [hf a (le_refl a) ha]
    simp only [Bool.false_eq_true, if_false]
    by_cases hl : a = m - 1
    · have hm : a + 1 = m := by omega
      rw [if_pos hl, ← hm]
      norm_num
    · rw [if_neg hl]
      exact ih (a + 1) (by omega) (by omega) (fun k hk hk2 => hf k (by omega) hk2)

/- ## Claim theorems -/

/-- C1, counterexample.  The claim says a lifecycle transition attempted
from an illegal current state fails with StateConflict and performs no
mutation.  On the code, submit-validation of a BOOKED document (legal
predecessor: EXTRACTED) succeeds with HTTP 200 and mutates the status to
VALIDATED: `validate_document` contains no precondition check. -/
theorem c1_counterexample :
    (validate_document (sampleDb .booked) "payload").2 = .ok "validated" ∧
    (validate_document (sampleDb .booked) "payload").1.doc.status = .validated ∧
    (sampleDb .booked).doc.status = .booked :=
  ⟨rfl, rfl, rfl⟩

/-- C1 (amended).  Run-processing and submit-validation perform no
precondition check at all: from any current status they succeed,
mutating the status to EXTRACTED (on OCR success) respectively
VALIDATED.  Only the booking operation checks its predecessor: from any
status other than VALIDATED it stops before any external call, but the
rejected attempt itself sets the status to ERROR rather than leaving the
document unchanged. -/
theorem c1_amended_no_precondition_checks :
    (∀ db payload,
        (validate_document db payload).2 = .ok "validated" ∧
        (validate_document db payload).1.doc.status = .validated) ∧
    (∀ db text conf,
        (process_document db (.ok (text, conf))).2 = .ok "extracted" ∧
        (process_document db (.ok (text, conf))).1.doc.status = .extracted) ∧
    (∀ db plan, db.doc.status ≠ .validated →
        (upload_to_yuki db plan).2.2 = 0 ∧
        (upload_to_yuki db plan).1.doc.status = .error) := by
  refine ⟨fun db payload => ⟨rfl, rfl⟩, fun db text conf => ⟨rfl, rfl⟩, ?_⟩
  intro db plan h
  simp only [upload_to_yuki, if_neg h]
  refine ⟨?_, ?_⟩ <;> trivial

/-- C1, witness for the amended theorem at a PENDING document. -/
theorem c1_witness :
    (sampleDb .pending).doc.status ≠ .validated ∧
    (upload_to_yuki (sampleDb .pending) samplePlan).2.2 = 0 ∧
    (upload_to_yuki (sampleDb .pending) samplePlan).1.doc.status = .error := by
  have h := (c1_amended_no_precondition_checks.2.2 (sampleDb .pending) samplePlan
    (by decide))
  exact ⟨by decide, h.1, h.2⟩

/-- C2, counterexample.  The claim says every status mutation appends
exactly one AuditLogEntry.  On the code, processing a PENDING document
mutates its status to EXTRACTED while the audit log stays empty: no
endpoint ever writes an `audit_logs` row. -/
theorem c2_counterexample :
    (process_document (sampleDb .pending) (.ok ("x", .image ⟨80, []⟩))).1.doc.status
      = .extracted ∧
    (sampleDb .pending).doc.status = .pending ∧
    (process_document (sampleDb .pending) (.ok ("x", .image ⟨80, []⟩))).1.auditLogs.length
      = 0 :=
  ⟨rfl, rfl, rfl⟩

/-- C2 (amended).  No lifecycle operation writes any audit record: the
audit log is left unchanged by processing (both on success and on an OCR
exception), by validation and by booking, so every status mutation —
including every transition to ERROR — is committed without an
AuditLogEntry.  The `AuditLog` model exists but is never instantiated. -/
theorem c2_amended_no_audit_writes :
    (∀ db r, (process_document db r).1.auditLogs = db.auditLogs) ∧
    (∀ db payload, (validate_document db payload).1.auditLogs = db.auditLogs) ∧
    (∀ db plan, (upload_to_yuki db plan).1.auditLogs = db.auditLogs) := by
  refine ⟨?_, fun db payload => rfl, ?_⟩
  · intro db r
    cases r <;> rfl
  · intro db plan
    rcases plan with ⟨i, u, b⟩
    by_cases h : db.doc.status = .validated <;>
      cases i <;> cases u <;> cases b <;> simp [upload_to_yuki, h]

/-- C3, counterexample.  The claim says every BookingAdapter operation
retries connectivity failures up to the configured maximum with a fixed
delay.  On the code, `upload_document` makes exactly one network attempt
and surfaces `YukiConnectionError` immediately even though its second
attempt would have succeeded: no operation has a retry loop — only
client initialisation does. -/
theorem c3_counterexample :
    failThenOk 1 = .success "DOC-1" ∧
    (upload_document_op failThenOk).attemptsMade = 1 ∧
    (upload_document_op failThenOk).result =
      .error (.connectionError "Failed to connect to Yuki API: connection reset") :=
  ⟨rfl, rfl, rfl⟩

/-- C3 (amended).  Only the lazily-run client initialisation
`_init_clients` retries: with every attempt below `maxRetries` failing
it makes exactly `maxRetries` attempts, sleeps the fixed delay
`maxRetries - 1` times, and raises ConnectionError — an exclusive
boundary at the configured count.  Each operation itself makes a single
attempt: a transport failure raises ConnectionError at once without
consuming the retry budget. -/
theorem c3_amended_retry_only_in_init :
    (∀ (succeeds : Nat → Bool) (m : Nat), 1 ≤ m →
        (∀ k, k < m → succeeds k = false) →
        init_clients succeeds m = .connError m (m - 1)) ∧
    (∀ attempts : Nat → CallOutcome,
        (upload_document_op attempts).attemptsMade = 1) ∧
    (∀ (attempts : Nat → CallOutcome) (msg : String),
        attempts 0 = .transportError msg →
        (upload_document_op attempts).result =
          .error (.connectionError ("Failed to connect to Yuki API: " ++ msg))) := by
  refine ⟨?_, ?_, ?_⟩
  · intro succeeds m h1 hf
    exact initClientsLoop_exhaust succeeds m m 0 (by omega) (by omega)
      (fun k _ hk2 => hf k hk2)
  · intro attempts
    unfold upload_document_op
    cases attempts 0 <;> rfl
  · intro attempts msg h
    unfold upload_document_op
    rw [h]

/-- C3, witness: `maxRetries = 3` with the first three attempts failing
exhausts the budget with exactly 3 attempts and a ConnectionError even
though a fourth attempt would succeed, and the upload operation makes
exactly one attempt. -/
theorem c3_witness :
    init_clients (fun k => decide (3 ≤ k)) 3 = .connError 3 2 ∧
    (upload_document_op failThenOk).attemptsMade = 1 := by
  constructor
  · have h := c3_amended_retry_only_in_init.1 (fun k => decide (3 ≤ k)) 3
      (by norm_num) (by decide)
    simpa using h
  · exact c3_amended_retry_only_in_init.2.1 failThenOk

/-- C4, counterexample.  The claim says booking a non-VALIDATED document
is rejected before any external call with no mutation.  On the code the
rejection does happen before any external call (zero calls made), but
the raised `HTTPException(400)` is caught by the endpoint's own
`except Exception` handler, which sets the status to ERROR and records
an error message — the document is mutated. -/
theorem c4_counterexample :
    (upload_to_yuki (sampleDb .extracted) samplePlan).2.2 = 0 ∧
    (upload_to_yuki (sampleDb .extracted) samplePlan).1.doc.status = .error ∧
    (sampleDb .extracted).doc.status = .extracted ∧
    (upload_to_yuki (sampleDb .extracted) samplePlan).1.doc.error_message =
      some "400: Document must be validated first" :=
  ⟨rfl, rfl, rfl, rfl⟩

/-- C4 (amended).  For every document not in VALIDATED status, the
booking attempt performs zero external calls and surfaces an HTTP 500
carrying the 400-detail — but the rejection sets the document's status
to ERROR and its errorMessage to the stringified rejection, because the
precondition's exception is handled by the same handler as external
failures.  The validation records are untouched. -/
theorem c4_amended_rejection_before_call_but_mutates :
    ∀ db plan, db.doc.status ≠ .validated →
      (upload_to_yuki db plan).2.2 = 0 ∧
      (upload_to_yuki db plan).2.1 =
        .httpError 500 "400: Document must be validated first" ∧
      (upload_to_yuki db plan).1.doc.status = .error ∧
      (upload_to_yuki db plan).1.doc.error_message =
        some "400: Document must be validated first" ∧
      (upload_to_yuki db plan).1.validations = db.validations := by
  intro db plan h
  simp only [upload_to_yuki, if_neg h]
  refine ⟨?_, ?_, ?_, ?_, ?_⟩ <;> trivial

/-- C4, witness for the amended theorem at a PROCESSING document. -/
theorem c4_witness :
    (sampleDb .processing).doc.status ≠ .validated ∧
    (upload_to_yuki (sampleDb .processing) samplePlan).2.2 = 0 ∧
    (upload_to_yuki (sampleDb .processing) samplePlan).1.doc.status = .error := by
  have h := c4_amended_rejection_before_call_but_mutates (sampleDb .processing)
    samplePlan (by decide)
  exact ⟨by decide, h.1, h.2.2.1⟩

/-- C5, counterexample.  The claim says the monetary and percentage
fields of submitted booking lines are exact decimals, never binary
floats.  On the code every line amount is produced by `float(...)`: for
`totalAmount=121.00, vatAmount=21.00` the principal line's Amount is a
binary float, and no line carries an exact-decimal field. -/
theorem c5_counterexample :
    ((create_accounting_entry_data "A1" exampleBookingData "D1").lines.all
        fun l => l.amount.isExactDecimal) = false ∧
    ((create_accounting_entry_data "A1" exampleBookingData "D1").lines.head?.map
        fun l => l.amount) = some (.pyFloat 121) :=
  ⟨rfl, rfl⟩

/-- C5 (amended).  At the `CreateBooking` boundary every submitted
line's Amount is a binary floating-point value (the result of a
`float(...)` conversion), the principal line's VATPercentage and
VATAmount are binary floats as well, and no monetary or percentage field
of any line is an exact decimal (the VAT counter-line's own VAT fields
are the integer literal 0). -/
theorem c5_amended_floats_at_boundary :
    ∀ adm data docId,
      ((create_accounting_entry_data adm data docId).lines.all
          fun l => l.amount.isBinFloat) = true ∧
      ((create_accounting_entry_data adm data docId).lines.all
          fun l => !l.amount.isExactDecimal && !l.vatPercentage.isExactDecimal &&
            !l.vatAmount.isExactDecimal) = true ∧
      ((create_accounting_entry_data adm data docId).lines.head?.map
          fun l => l.vatPercentage.isBinFloat && l.vatAmount.isBinFloat) = some true := by
  intro adm data docId
  by_cases hb : vatTruthy data.vat_amount <;>
    simp [create_accounting_entry_data, hb, pyFloatOf_isBinFloat,
      pyFloatOf_not_decimal, pyInt_isExactDecimal, pyInt_isBinFloat]

/-- C6, counterexample.  The claim says a `"1.234,56"`-style amount
parses to exactly 1234.56.  On the code the capture regex
`(\d+[.,]\d{2})` stops at the first separator plus two digits, so
`"Totaal: 1.234,56"` yields 1.23, not 1234.56. -/
theorem c6_counterexample :
    extract_total_amount "Totaal: 1.234,56" ≠ some ((123456 : Rat) / 100) := by
  have h1 : extract_total_amount "Totaal: 1.234,56" = some (mkRat 123 100) := by
    decide
  rw [h1, Rat.mkRat_eq_div]
  intro h
  have h2 := Option.some.inj h
  norm_num at h2

/-- C6 (amended).  The total-amount extractor parses a
`"1.234,56"`-style text to the exact decimal 1.23 (the capture stops at
the first separator plus two decimals), parses `"1234.56"`-style text to
exactly 1234.56, and yields null — not an exception — for the malformed
`"12,5,6"`, which no pattern can capture. -/
theorem c6_amended_amount_parsing :
    extract_total_amount "Totaal: 1.234,56" = some ((123 : Rat) / 100) ∧
    extract_total_amount "Totaal: 1234.56" = some ((123456 : Rat) / 100) ∧
    extract_total_amount "Totaal: 12,5,6" = none := by
  have h1 : extract_total_amount "Totaal: 1.234,56" = some (mkRat 123 100) := by
    decide
  have h2 : extract_total_amount "Totaal: 1234.56" = some (mkRat 123456 100) := by
    decide
  have h3 : extract_total_amount "Totaal: 12,5,6" = none := by decide
  refine ⟨?_, ?_, h3⟩
  · rw [h1, Rat.mkRat_eq_div]
    norm_num
  · rw [h2, Rat.mkRat_eq_div]
    norm_num

/-- C7.  `create_accounting_entry` submits exactly 2 lines when the
input carries a non-zero VAT amount and exactly 1 line when the VAT
amount is zero or null; when present, the VAT line's own VAT-percentage
and VAT-amount fields are zero. -/
theorem c7_booking_line_count :
    (∀ adm data docId, data.vat_amount = none →
        (create_accounting_entry_data adm data docId).lines.length = 1) ∧
    (∀ adm data docId, data.vat_amount = some 0 →
        (create_accounting_entry_data adm data docId).lines.length = 1) ∧
    (∀ adm data docId q, data.vat_amount = some q → q ≠ 0 →
        (create_accounting_entry_data adm data docId).lines.length = 2 ∧
        ((create_accounting_entry_data adm data docId).lines.getLast?.map
            fun l => l.vatPercentage == PyNum.pyInt 0 && l.vatAmount == PyNum.pyInt 0)
          = some true) := by
  refine ⟨?_, ?_, ?_⟩
  · intro adm data docId h
    simp [create_accounting_entry_data, vatTruthy, h]
  · intro adm data docId h
    simp [create_accounting_entry_data, vatTruthy, h]
  · intro adm data docId q h hq
    have hb : vatTruthy data.vat_amount = true := by
      simp [vatTruthy, h, hq]
    simp [create_accounting_entry_data, hb]

/-- C7, witness: `totalAmount=121.00, vatAmount=21.00` gives exactly 2
lines; the same input with the VAT amount absent gives exactly 1. -/
theorem c7_witness :
    (create_accounting_entry_data "A1" exampleBookingData "D1").lines.length = 2 ∧
    (create_accounting_entry_data "A1" exampleBookingDataNoVat "D1").lines.length = 1 := by
  exact ⟨(c7_booking_line_count.2.2 "A1" exampleBookingData "D1" 21 rfl
            (by norm_num)).1,
         c7_booking_line_count.1 "A1" exampleBookingDataNoVat "D1" rfl⟩

/-- C8, counterexample.  The claim says a text whose earliest date match
is a well-formed DD/MM/YYYY slash date is parsed to that date.  On the
code `extract_date "12/05/2023"` is null: the slash date matches the
first pattern but none of the three format strings contains slashes, and
no later pattern matches. -/
theorem c8_counterexample :
    extract_date "12/05/2023" = none ∧
    extract_date "12/05/2023" ≠ some ⟨2023, 5, 12⟩ := by
  have h : extract_date "12/05/2023" = none := by decide
  exact ⟨h, by rw [h]; exact fun hc => Option.noConfusion hc⟩

/-- C8 (amended).  Date extraction tries the three patterns in order and
returns the first pattern-and-format combination that parses, null
otherwise; dash DD-MM-YYYY, ISO YYYY-MM-DD and `DD <Month> YYYY` dates
parse, but a slash-separated DD/MM/YYYY date yields null because the
format list `['%d-%m-%Y', '%Y-%m-%d', '%d %B %Y']` has no
slash-separated entry. -/
theorem c8_amended_date_extraction :
    extract_date "12-05-2023" = some ⟨2023, 5, 12⟩ ∧
    extract_date "2023-05-12" = some ⟨2023, 5, 12⟩ ∧
    extract_date "12 May 2023" = some ⟨2023, 5, 12⟩ ∧
    extract_date "12/05/2023" = none := by
  refine ⟨by decide, by decide, by decide, by decide⟩

/-- C9.  For every non-empty page sequence, `_process_pdf` returns the
pages' text joined in page order, an overall confidence equal to the
arithmetic mean of the per-page overalls, and a per-page map with
exactly one entry per input page keyed by page index (distinct keys,
page confidences preserved in order). -/
theorem c9_confidence_aggregation :
    ∀ pages : List (String × PageConf), pages ≠ [] →
      (process_pdf pages).1 = String.intercalate "\n\n" (pages.map Prod.fst) ∧
      (process_pdf pages).2.overall =
        (pages.map fun p => p.2.overall).sum / (pages.length : Rat) ∧
      (process_pdf pages).2.perPage.length = pages.length ∧
      (process_pdf pages).2.perPage.map Prod.fst =
        (List.range pages.length).map (fun i => pageKey (i + 1)) ∧
      (process_pdf pages).2.perPage.map Prod.snd = pages.map Prod.snd ∧
      ((process_pdf pages).2.perPage.map Prod.fst).Nodup := by
  intro pages _
  have hfst : (process_pdf pages).2.perPage.map Prod.fst =
      (List.range pages.length).map (fun i => pageKey (i + 1)) := by
    show (((pages.map Prod.snd).enum.map
        fun ic => (pageKey (ic.1 + 1), ic.2)).map Prod.fst) = _
    rw [List.map_map]
    have hc : (Prod.fst ∘ fun ic : Nat × PageConf => (pageKey (ic.1 + 1), ic.2)) =
        ((fun i => pageKey (i + 1)) ∘ Prod.fst) := rfl
    rw [hc, ← List.map_map, List.enum_map_fst, List.length_map]
  refine ⟨rfl, ?_, ?_, hfst, ?_, ?_⟩
  · show ((pages.map Prod.snd).map PageConf.overall).sum /
        (((pages.map Prod.snd).length : Nat) : Rat) = _
    rw [List.map_map, List.length_map]
    rfl
  · show ((pages.map Prod.snd).enum.map
        fun ic => (pageKey (ic.1 + 1), ic.2)).length = _
    rw [List.length_map, List.enum_length, List.length_map]
  · show (((pages.map Prod.snd).enum.map
        fun ic => (pageKey (ic.1 + 1), ic.2)).map Prod.snd) = _
    rw [List.map_map]
    have hc : (Prod.snd ∘ fun ic : Nat × PageConf => (pageKey (ic.1 + 1), ic.2)) =
        (Prod.snd : Nat × PageConf → PageConf) := rfl
    rw [hc, List.enum_map_snd]
  · rw [hfst]
    exact (List.nodup_range _).map pageKeySucc_injective

/-- C9, witness: three pages with overalls 80, 90, 100 aggregate to
exactly 90, with exactly 3 per-page entries. -/
theorem c9_witness :
    (process_pdf pages3).2.overall = 90 ∧
    (process_pdf pages3).2.perPage.length = 3 := by
  have h := c9_confidence_aggregation pages3 (by decide)
  constructor
  · rw [h.2.1]
    norm_num [pages3]
  · rw [h.2.2.1]
    rfl

/-- C10.  The intake endpoint persists a storage path equal to the join
of the configured upload directory with the client-supplied filename
taken verbatim (no sanitization), and for a filename beginning with
`../` the recorded path resolves outside the upload directory. -/
theorem c10_upload_path_unsanitized :
    (∀ uploadDir newId fname ct sz,
        (intake_document uploadDir newId fname ct sz).file_path =
          osPathJoin uploadDir fname ∧
        (intake_document uploadDir newId fname ct sz).original_filename = fname ∧
        (intake_document uploadDir newId fname ct sz).status = .pending) ∧
    osPathJoin "uploads" "../evil.pdf" = "uploads/../evil.pdf" ∧
    normRelPath (osPathJoin "uploads" "../evil.pdf") = "evil.pdf" ∧
    strStartsWith (normRelPath (osPathJoin "uploads" "../evil.pdf")) "uploads/"
      = false := by
  refine ⟨fun uploadDir newId fname ct sz => ⟨rfl, rfl, rfl⟩,
    by decide, by decide, by decide⟩

end YukiBot
